import Mathlib

/-!
Verification of `src/ollama-proxy/anthro_to_openai_proxy.py`, a gateway
translating Anthropic-style `/v1/messages` requests into OpenAI-style
chat-completion requests and back.

The Python values flowing through the proxy (parsed JSON bodies) are embedded
as the inductive type `J`.  JSON numbers are modelled as rationals (JSON
numbers are decimal literals; the proxy never computes with them, it only
passes them through, so exact rationals are a faithful carrier).  Python
dictionaries produced by JSON parsing have pairwise-distinct string keys; they
are modelled as association lists with first-match lookup, which agrees with
dictionary lookup on all duplicate-free lists.

A Python expression that can raise an uncaught exception (`IndexError`,
`AttributeError`, `TypeError`, ...) is embedded as an `Option`-valued
function, `none` meaning the exception escapes.
-/

/-- Embedded Python/JSON value. -/
inductive J where
  | null : J
  | bool : Bool → J
  | num : Rat → J
  | str : String → J
  | arr : List J → J
  | obj : List (String × J) → J

namespace Proxy

/-- `d.get(key)` on an embedded dictionary given as its key/value list:
first matching key wins (keys of parsed JSON dictionaries are distinct). -/
def pyGet {α : Type} : List (String × α) → String → Option α
  | [], _ => none
  | (k, v) :: rest, key => if k = key then some v else pyGet rest key

/-- `d.get(key, default)` on an embedded dictionary. -/
def pyGetD {α : Type} (kvs : List (String × α)) (key : String) (d : α) : α :=
  (pyGet kvs key).getD d

/-- Python truthiness (`if x:`) of an embedded value. -/
def pyTruthy : J → Bool
  | J.null => false
  | J.bool b => b
  | J.num q => q ≠ 0
  | J.str s => s ≠ ""
  | J.arr l => !l.isEmpty
  | J.obj l => !l.isEmpty

mutual

/-- Python `str()`/`repr()` of an embedded value, used only by the defensive
fallback branch of `extract_text_from_content` (`return str(content)`).
The numeric rendering is approximate (the embedding carries rationals where
Python carries ints/floats); no verified property depends on this branch. -/
def pyRepr : J → String
  | J.null => "None"
  | J.bool true => "True"
  | J.bool false => "False"
  | J.num q => toString q
  | J.str s => "\x27" ++ s ++ "\x27"
  | J.arr l => "[" ++ String.intercalate ", " (pyReprList l) ++ "]"
  | J.obj l => "\x7b" ++ String.intercalate ", " (pyReprFields l) ++ "\x7d"

/-- `repr` of the elements of an embedded list. -/
def pyReprList : List J → List String
  | [] => []
  | x :: xs => pyRepr x :: pyReprList xs

/-- `repr` of the key/value pairs of an embedded dictionary. -/
def pyReprFields : List (String × J) → List String
  | [] => []
  | (k, v) :: xs => ("\x27" ++ k ++ "\x27: " ++ pyRepr v) :: pyReprFields xs

end

/-- `DEFAULT_MODEL_MAP` from the source, in source order: Claude model names
mapped to local Ollama aliases. -/
def DEFAULT_MODEL_MAP : List (String × String) :=
  [("claude-sonnet-4-5-20250514", "claude-sonet-4-5:latest"),
   ("claude-opus-4-5-20251101", "claude-opus-4-5:latest"),
   ("claude-haiku-4-5-20250514", "claude-haiku-4-5:latest"),
   ("claude-sonnet-4-5", "claude-sonet-4-5:latest"),
   ("claude-opus-4-5", "claude-opus-4-5:latest"),
   ("claude-haiku-4-5", "claude-haiku-4-5:latest"),
   ("claude-3-5-sonnet-latest", "claude-sonet-4-5:latest"),
   ("claude-3-5-haiku-latest", "claude-haiku-4-5:latest"),
   ("claude-3-opus-latest", "claude-opus-4-5:latest")]

/-- `map_model`: `DEFAULT_MODEL_MAP.get(anthropic_model, anthropic_model)`. -/
def map_model (anthropic_model : String) : String :=
  pyGetD DEFAULT_MODEL_MAP anthropic_model anthropic_model

/-- `DEFAULT_MODEL_MAP.get(model, model)` as called from `handle_messages`,
where `model` is an arbitrary value taken from the request body.  A string is
looked up via `map_model`; other hashable values are never keys of the table
and are returned unchanged; unhashable values (lists, dictionaries) raise
`TypeError`. -/
def map_model_py : J → Option J
  | J.str s => some (J.str (map_model s))
  | J.arr _ => none
  | J.obj _ => none
  | v => some v

/-- Does `item.get("type") == "text"` hold for the given `type` field value? -/
def isTextType : Option J → Bool
  | some (J.str s) => s = "text"
  | _ => false

/-- The loop body of the `isinstance(content, list)` branch of
`extract_text_from_content`: the `texts` list accumulated over the items.
A plain string item is appended; a dictionary item with `type == "text"`
contributes `item.get("text", "")`, a dictionary item merely containing a
`"text"` key contributes `item["text"]`; everything else is skipped.  The
contributed values are arbitrary embedded values: `"\n".join` later raises
if one of them is not a string. -/
def extract_list_texts : List J → List J
  | [] => []
  | item :: rest =>
    match item with
    | J.str s => J.str s :: extract_list_texts rest
    | J.obj kvs =>
      if isTextType (pyGet kvs "type") then
        pyGetD kvs "text" (J.str "") :: extract_list_texts rest
      else
        match pyGet kvs "text" with
        | some t => t :: extract_list_texts rest
        | none => extract_list_texts rest
    | _ => extract_list_texts rest

/-- The string contents of a list of embedded values, `none` when some
element is not a string. -/
def as_strings : List J → Option (List String)
  | [] => some []
  | J.str s :: rest => (as_strings rest).map (fun l => s :: l)
  | _ :: _ => none

/-- `"\n".join(texts)`: succeeds only when every element is a string,
otherwise Python raises `TypeError`. -/
def join_texts (ts : List J) : Option String :=
  (as_strings ts).map (String.intercalate "\n")

/-- `extract_text_from_content(content)`: `None` yields `""`, a string is
returned unchanged, a list is flattened via `extract_list_texts` and joined
with newlines, anything else falls back to `str(content)`. -/
def extract_text_from_content : J → Option String
  | J.null => some ""
  | J.str s => some s
  | J.arr items => join_texts (extract_list_texts items)
  | v => some (pyRepr v)

/-- The `for m in messages:` loop body of `anthropic_messages_to_openai`:
each element must be a dictionary (`m.get` on anything else raises
`AttributeError`); its role defaults to `"user"`, its content defaults to
`""` and is flattened by `extract_text_from_content`. -/
def convert_messages : List J → Option (List J)
  | [] => some []
  | m :: rest =>
    match m with
    | J.obj kvs =>
      match extract_text_from_content (pyGetD kvs "content" (J.str "")) with
      | some c =>
        (convert_messages rest).map (fun tail =>
          J.obj [("role", pyGetD kvs "role" (J.str "user")),
                 ("content", J.str c)] :: tail)
      | none => none
    | _ => none

/-- The initial contents of the `out` list of `anthropic_messages_to_openai`:
the system message, added when `system` is truthy (`if system:`). -/
def system_message_list (system : Option J) : List J :=
  match system with
  | some s =>
    if pyTruthy s then [J.obj [("role", J.str "system"), ("content", s)]]
    else []
  | none => []

/-- `anthropic_messages_to_openai(messages, system)`: prepends
`{role: "system", content: system}` when `system` is truthy, then iterates
over `messages`.  Iterating a non-list raises `TypeError` — except that an
empty dictionary or empty string iterates zero times, and a non-empty
dictionary or string yields string elements on which the loop body raises. -/
def anthropic_messages_to_openai (messages : J) (system : Option J) :
    Option (List J) :=
  match messages with
  | J.arr l => (convert_messages l).map (fun ms => system_message_list system ++ ms)
  | J.obj [] => some (system_message_list system)
  | J.str "" => some (system_message_list system)
  | _ => none

/-- The request-side half of `handle_messages` (lines 112-130 of the source):
extract `model`, `messages`, `system`, `max_tokens`, `temperature` from the
parsed body (a non-dictionary body raises on `.get`), resolve the model and
convert the messages, and build the backend payload, whose `stream` field is
the literal `False`.  Returns the original `model` value together with the
payload; `none` models an uncaught exception. -/
def build_payload (body : J) : Option (J × J) :=
  match body with
  | J.obj kvs =>
    match map_model_py (pyGetD kvs "model" (J.str "claude-haiku-4-5")) with
    | none => none
    | some target_model =>
      match anthropic_messages_to_openai (pyGetD kvs "messages" (J.arr []))
          (pyGet kvs "system") with
      | none => none
      | some openai_messages =>
        some (pyGetD kvs "model" (J.str "claude-haiku-4-5"),
          J.obj [("model", target_model),
                 ("messages", J.arr openai_messages),
                 ("max_tokens", pyGetD kvs "max_tokens" (J.num 4096)),
                 ("temperature", pyGetD kvs "temperature" (J.num (7 / 10))),
                 ("stream", J.bool false)])
  | _ => none

/-- `data.get("choices", [{}])[0].get("message", {}).get("content", "")`
over the key/value list of the backend reply `data`.  `none` models an
uncaught exception: indexing `[0]` into a present-but-empty `choices` list
raises `IndexError`, and `.get` on a non-dictionary intermediate raises.
When `choices` is absent the default `[{}]` makes the whole chain degrade
to `""`. -/
def extract_response_text (dkvs : List (String × J)) : Option J :=
  match pyGetD dkvs "choices" (J.arr [J.obj []]) with
  | J.arr [] => none
  | J.arr (c0 :: _) =>
    match c0 with
    | J.obj ckvs =>
      match pyGetD ckvs "message" (J.obj []) with
      | J.obj mkvs => some (pyGetD mkvs "content" (J.str ""))
      | _ => none
    | _ => none
  | _ => none

/-- `data.get("usage", {}).get(field, 0)` over the key/value list of the
backend reply: defaults to `0` when `usage` or the field is absent; raises
(`none`) when `usage` is present but not a dictionary. -/
def extract_usage_field (dkvs : List (String × J)) (field : String) :
    Option J :=
  match pyGetD dkvs "usage" (J.obj []) with
  | J.obj ukvs => some (pyGetD ukvs field (J.num 0))
  | _ => none

/-- The Anthropic-compatible success response dictionary built at the end of
`handle_messages` (lines 162-174 of the source). -/
def anthropic_response (mid : String)
    (model text input_tokens output_tokens : J) : J :=
  J.obj [("id", J.str mid),
         ("type", J.str "message"),
         ("role", J.str "assistant"),
         ("model", model),
         ("content", J.arr [J.obj [("type", J.str "text"), ("text", text)]]),
         ("stop_reason", J.str "end_turn"),
         ("stop_sequence", J.null),
         ("usage", J.obj [("input_tokens", input_tokens),
                          ("output_tokens", output_tokens)])]

/-- The error dictionary `{"type": "error", "error": {"type": t,
"message": m}}` returned on backend failures. -/
def error_envelope (t m : String) : J :=
  J.obj [("type", J.str "error"),
         ("error", J.obj [("type", J.str t), ("message", J.str m)])]

/-- Outcome of the single `httpx` call to the backend, as observed by the
`try` block of `handle_messages`: a 2xx reply whose body parsed to `data`;
an `httpx.HTTPStatusError` raised by `raise_for_status()` carrying the
backend status code and body text; or any other exception (transport
failure, timeout, or a 2xx body that is not valid JSON), carrying `str(e)`. -/
inductive BackendOutcome where
  | ok (data : J)
  | httpStatusError (status : Nat) (text : String)
  | exn (desc : String)

/-- Value returned by the `handle_messages` coroutine: a plain dictionary
body, the `(dict, 400)` tuple of the invalid-JSON branch, or an uncaught
Python exception escaping the handler (`crash`). -/
inductive HandlerResult where
  | body (b : J)
  | tuple (b : J) (status : Nat)
  | crash

/-- `handle_messages`: the full request handler.  `parsed` is the outcome of
`await request.json()` (`Except.error e` when parsing raised, with `e` the
exception text), `backend` the outcome of the backend call, `mid` the
generated `msg_`-prefixed identifier. -/
def handle_messages (parsed : Except String J) (backend : BackendOutcome)
    (mid : String) : HandlerResult :=
  match parsed with
  | Except.error e =>
    HandlerResult.tuple
      (J.obj [("error",
        J.obj [("type", J.str "invalid_request_error"),
               ("message", J.str ("Invalid JSON: " ++ e))])]) 400
  | Except.ok body =>
    match build_payload body with
    | none => HandlerResult.crash
    | some (model, _payload) =>
      match backend with
      | BackendOutcome.httpStatusError status text =>
        HandlerResult.body (error_envelope "api_error"
          ("Ollama error: " ++ toString status ++ " - " ++ text))
      | BackendOutcome.exn desc =>
        HandlerResult.body (error_envelope "api_error"
          ("Connection error: " ++ desc))
      | BackendOutcome.ok data =>
        match data with
        | J.obj dkvs =>
          match extract_response_text dkvs,
              extract_usage_field dkvs "prompt_tokens",
              extract_usage_field dkvs "completion_tokens" with
          | some text, some it, some ot =>
            HandlerResult.body (anthropic_response mid model text it ot)
          | _, _, _ => HandlerResult.crash
        | _ => HandlerResult.crash

/-- Field projection on an embedded dictionary value, used to state
properties of produced dictionaries. -/
def jfield (v : J) (k : String) : Option J :=
  match v with
  | J.obj kvs => pyGet kvs k
  | _ => none

/-- The per-block text-extraction rule exactly as the specification words it
(§3 of the spec), over a block given by its key/value list: a block whose
`type` discriminator is `"text"` contributes its `text` field, defaulting to
the empty string when that field is absent; a block lacking that
discriminator but carrying a (string) `text` field contributes that field;
every other block contributes nothing.  Used to compare the specified
normalization with the implemented one. -/
def spec_block_text (kvs : List (String × J)) : Option String :=
  if isTextType (pyGet kvs "type") then
    some (match pyGet kvs "text" with
      | some (J.str t) => t
      | _ => "")
  else
    match pyGet kvs "text" with
    | some (J.str t) => some t
    | _ => none

/-! ### Helper lemmas -/

theorem pyGet_eq_none {α : Type} (kvs : List (String × α)) (key : String)
    (h : key ∉ kvs.map Prod.fst) : pyGet kvs key = none := by
  induction kvs with
  | nil => rfl
  | cons kv rest ih =>
    obtain ⟨k, v⟩ := kv
    simp only [List.map_cons, List.mem_cons] at h
    push_neg at h
    simp only [pyGet, if_neg (fun hk : k = key => h.1 hk.symm)]
    exact ih h.2

theorem as_strings_map (l : List String) : as_strings (l.map J.str) = some l := by
  induction l with
  | nil => rfl
  | cons s rest ih => simp [as_strings, ih]

theorem join_texts_strs (l : List String) :
    join_texts (l.map J.str) = some (String.intercalate "\n" l) := by
  rw [join_texts, as_strings_map]
  rfl

theorem extract_list_texts_append (a b : List J) :
    extract_list_texts (a ++ b) =
      extract_list_texts a ++ extract_list_texts b := by
  induction a with
  | nil => rfl
  | cons item rest ih =>
    cases item with
    | obj kvs =>
      by_cases ht : isTextType (pyGet kvs "type")
      · simp [extract_list_texts, ht, ih]
      · cases hpt : pyGet kvs "text" with
        | none => simp [extract_list_texts, ht, hpt, ih]
        | some t => simp [extract_list_texts, ht, hpt, ih]
    | str s => simp [extract_list_texts, ih]
    | null => simp [extract_list_texts, ih]
    | bool b => simp [extract_list_texts, ih]
    | num q => simp [extract_list_texts, ih]
    | arr l => simp [extract_list_texts, ih]

/-! ### C5 -/

/-- C5: every key of `DEFAULT_MODEL_MAP` resolves to its configured target,
and every identifier that is not a key of the table resolves to itself.
`map_model` is a total Lean function, so totality and absence of side
effects hold by construction. -/
theorem spec_C5 :
    (∀ m t, (m, t) ∈ DEFAULT_MODEL_MAP → map_model m = t) ∧
    (∀ m, m ∉ DEFAULT_MODEL_MAP.map Prod.fst → map_model m = m) := by
  constructor
  · intro m t h
    simp only [DEFAULT_MODEL_MAP] at h
    fin_cases h <;> rfl
  · intro m h
    simp [map_model, pyGetD, pyGet_eq_none DEFAULT_MODEL_MAP m h]

/-- C5 witness: a mapped identifier and an unmapped one, evaluated. -/
theorem spec_C5_witness :
    map_model "claude-haiku-4-5-20250514" = "claude-haiku-4-5:latest" ∧
    map_model "llama3:8b" = "llama3:8b" :=
  ⟨spec_C5.1 _ _ (by decide), spec_C5.2 "llama3:8b" (by decide)⟩

/-! ### C2 -/

/-- C2 counterexample: on a JSON parse failure the handler returns the
`(dict, 400)` tuple, but the dictionary has no top-level `"type"` key — it is
not of the claimed shape `{type: "error", error: ...}`; only the inner
`"error"` object is present. -/
theorem spec_C2_counterexample :
    handle_messages (Except.error "Expecting value: line 1 column 1 (char 0)")
        (BackendOutcome.ok (J.obj [])) "mid" =
      HandlerResult.tuple
        (J.obj [("error",
          J.obj [("type", J.str "invalid_request_error"),
                 ("message",
                  J.str "Invalid JSON: Expecting value: line 1 column 1 (char 0)")])])
        400 ∧
    jfield
      (J.obj [("error",
        J.obj [("type", J.str "invalid_request_error"),
               ("message",
                J.str "Invalid JSON: Expecting value: line 1 column 1 (char 0)")])])
      "type" = none :=
  ⟨rfl, rfl⟩

/-- C2 (amended): for every parse failure `e`, the handler returns, paired
with the number 400, the dictionary
`{"error": {"type": "invalid_request_error", "message": "Invalid JSON: " ++ e}}`;
the message contains the parse failure detail, but the top-level
`"type": "error"` discriminator of the ErrorEnvelope shape is absent, and the
400 travels only as the second tuple component, not as a guaranteed HTTP
status. -/
theorem spec_C2 (e : String) (backend : BackendOutcome) (mid : String) :
    handle_messages (Except.error e) backend mid =
      HandlerResult.tuple
        (J.obj [("error",
          J.obj [("type", J.str "invalid_request_error"),
                 ("message", J.str ("Invalid JSON: " ++ e))])]) 400 ∧
    jfield
      (J.obj [("error",
        J.obj [("type", J.str "invalid_request_error"),
               ("message", J.str ("Invalid JSON: " ++ e))])]) "type" = none :=
  ⟨rfl, rfl⟩

/-! ### C8 -/

/-- C8: whatever the inbound body (and in particular whatever its `stream`
field holds), any payload the handler builds for the backend carries
`stream = false`. -/
theorem spec_C8 (body mo pl : J) (hb : build_payload body = some (mo, pl)) :
    jfield pl "stream" = some (J.bool false) := by
  unfold build_payload at hb
  split at hb
  case _ kvs =>
    split at hb
    · exact Option.noConfusion hb
    · split at hb
      · exact Option.noConfusion hb
      · simp only [Option.some.injEq, Prod.mk.injEq] at hb
        rw [← hb.2]
        rfl
  case _ => exact Option.noConfusion hb

/-- C8 witness: a body that explicitly asks for `stream = true` still yields
a payload with `stream = false`. -/
theorem spec_C8_witness :
    jfield
      (J.obj [("model", J.str "claude-haiku-4-5:latest"),
              ("messages", J.arr []),
              ("max_tokens", J.num 4096),
              ("temperature", J.num (7 / 10)),
              ("stream", J.bool false)]) "stream" = some (J.bool false) :=
  spec_C8 (J.obj [("stream", J.bool true)]) (J.str "claude-haiku-4-5") _ rfl

/-! ### C1 -/

theorem extract_text_choices_absent (dkvs : List (String × J))
    (hc : pyGet dkvs "choices" = none) :
    extract_response_text dkvs = some (J.str "") := by
  simp [extract_response_text, pyGetD, hc, pyGet]

theorem extract_usage_absent (dkvs : List (String × J)) (field : String)
    (hu : pyGet dkvs "usage" = none) :
    extract_usage_field dkvs field = some (J.num 0) := by
  simp [extract_usage_field, pyGetD, hu, pyGet]

/-- C1 counterexample: a backend success reply whose `choices` is present and
an empty sequence makes the handler crash (`[][0]` raises `IndexError`): the
Response Translator does fail rather than degrading to an empty text. -/
theorem spec_C1_counterexample :
    handle_messages (Except.ok (J.obj []))
        (BackendOutcome.ok (J.obj [("choices", J.arr [])])) "mid" =
      HandlerResult.crash :=
  rfl

/-- C1 (amended): the defensive defaults hold only when the fields are
absent, not when `choices` is present and empty.  When the `choices` key is
absent (and the `usage` key is absent) the handler produces the default
single-block response with empty text and zero token counts; when the first
element of `choices` is an object without a `message` key, or its `message`
object has no `content` key, the extracted text likewise degrades to `""`;
and a present `usage` object without the token field yields 0.  A
present-but-empty `choices` sequence instead raises `IndexError`
(see the counterexample). -/
theorem spec_C1 (dkvs ckvs mkvs ukvs : List (String × J)) (rest : List J)
    (hc : pyGet dkvs "choices" = none) (hu : pyGet dkvs "usage" = none)
    (hm : pyGet ckvs "message" = none) (hcon : pyGet mkvs "content" = none)
    (hp : pyGet ukvs "prompt_tokens" = none) :
    handle_messages (Except.ok (J.obj [])) (BackendOutcome.ok (J.obj dkvs))
        "mid" =
      HandlerResult.body (anthropic_response "mid" (J.str "claude-haiku-4-5")
        (J.str "") (J.num 0) (J.num 0)) ∧
    extract_response_text (("choices", J.arr (J.obj ckvs :: rest)) :: dkvs) =
      some (J.str "") ∧
    extract_response_text
        (("choices", J.arr (J.obj (("message", J.obj mkvs) :: ckvs) :: rest))
          :: dkvs) = some (J.str "") ∧
    extract_usage_field (("usage", J.obj ukvs) :: dkvs) "prompt_tokens" =
      some (J.num 0) := by
  refine ⟨?_, ?_, ?_, ?_⟩
  · have h1 := extract_text_choices_absent dkvs hc
    have h2 := extract_usage_absent dkvs "prompt_tokens" hu
    have h3 := extract_usage_absent dkvs "completion_tokens" hu
    simp only [handle_messages,
      show build_payload (J.obj []) =
        some (J.str "claude-haiku-4-5",
          J.obj [("model", J.str "claude-haiku-4-5:latest"),
                 ("messages", J.arr []),
                 ("max_tokens", J.num 4096),
                 ("temperature", J.num (7 / 10)),
                 ("stream", J.bool false)]) from rfl,
      h1, h2, h3]
  · simp [extract_response_text, pyGetD, pyGet, hm]
  · simp [extract_response_text, pyGetD, pyGet, hm, hcon]
  · simp [extract_usage_field, pyGetD, pyGet, hp]

/-- C1 witness: the amended statement evaluated at the empty backend reply
(the spec's own `{}` example) and at singleton degenerate choices. -/
theorem spec_C1_witness :
    handle_messages (Except.ok (J.obj [])) (BackendOutcome.ok (J.obj []))
        "mid" =
      HandlerResult.body (anthropic_response "mid" (J.str "claude-haiku-4-5")
        (J.str "") (J.num 0) (J.num 0)) ∧
    extract_response_text [("choices", J.arr [J.obj []])] = some (J.str "") ∧
    extract_response_text
        [("choices", J.arr [J.obj [("message", J.obj [])]])] =
      some (J.str "") ∧
    extract_usage_field [("usage", J.obj [])] "prompt_tokens" =
      some (J.num 0) :=
  spec_C1 [] [] [] [] [] rfl rfl rfl rfl rfl

/-! ### C6 -/

/-- C6: for every SourceRequest on which translation succeeds, the backend
payload carries the resolved model identifier — its `model` field equals
`map_model_py` applied to the original model value `mo` that `build_payload`
retains — while the success response built for any backend reply on which
extraction succeeds embeds that original `mo`, whose `model` field echoes it
unchanged; in particular `"claude-haiku-4-5-20250514"` resolves to
`"claude-haiku-4-5:latest"`. -/
theorem spec_C6 (body mo pl : J) (hb : build_payload body = some (mo, pl))
    (mid : String) (dkvs : List (String × J)) (text it ot : J)
    (h1 : extract_response_text dkvs = some text)
    (h2 : extract_usage_field dkvs "prompt_tokens" = some it)
    (h3 : extract_usage_field dkvs "completion_tokens" = some ot) :
    jfield pl "model" = map_model_py mo ∧
    handle_messages (Except.ok body) (BackendOutcome.ok (J.obj dkvs)) mid =
      HandlerResult.body (anthropic_response mid mo text it ot) ∧
    jfield (anthropic_response mid mo text it ot) "model" = some mo ∧
    map_model "claude-haiku-4-5-20250514" = "claude-haiku-4-5:latest" := by
  refine ⟨?_, ?_, rfl, rfl⟩
  · unfold build_payload at hb
    split at hb
    case _ kvs =>
      split at hb
      · exact Option.noConfusion hb
      · rename_i target_model heq
        split at hb
        · exact Option.noConfusion hb
        · simp only [Option.some.injEq, Prod.mk.injEq] at hb
          obtain ⟨hmo, hpl⟩ := hb
          subst hpl
          rw [hmo] at heq
          rw [heq]
          rfl
    case _ => exact Option.noConfusion hb
  · simp only [handle_messages, hb, h1, h2, h3]

/-- C6 witness: the round trip evaluated at the request
`{"model": "claude-haiku-4-5-20250514"}` and the backend reply
`{"choices": [{"message": {"content": "hi"}}],
  "usage": {"prompt_tokens": 3, "completion_tokens": 1}}`: the payload
carries the resolved `"claude-haiku-4-5:latest"` while the response echoes
the original identifier. -/
theorem spec_C6_witness :
    jfield
        (J.obj [("model", J.str "claude-haiku-4-5:latest"),
                ("messages", J.arr []),
                ("max_tokens", J.num 4096),
                ("temperature", J.num (7 / 10)),
                ("stream", J.bool false)]) "model" =
      map_model_py (J.str "claude-haiku-4-5-20250514") ∧
    handle_messages
        (Except.ok (J.obj [("model", J.str "claude-haiku-4-5-20250514")]))
        (BackendOutcome.ok (J.obj
          [("choices", J.arr [J.obj [("message",
              J.obj [("content", J.str "hi")])]]),
           ("usage", J.obj [("prompt_tokens", J.num 3),
                            ("completion_tokens", J.num 1)])])) "mid" =
      HandlerResult.body (anthropic_response "mid"
        (J.str "claude-haiku-4-5-20250514") (J.str "hi") (J.num 3)
        (J.num 1)) ∧
    jfield (anthropic_response "mid" (J.str "claude-haiku-4-5-20250514")
        (J.str "hi") (J.num 3) (J.num 1)) "model" =
      some (J.str "claude-haiku-4-5-20250514") ∧
    map_model "claude-haiku-4-5-20250514" = "claude-haiku-4-5:latest" :=
  spec_C6 (J.obj [("model", J.str "claude-haiku-4-5-20250514")])
    (J.str "claude-haiku-4-5-20250514")
    (J.obj [("model", J.str "claude-haiku-4-5:latest"),
            ("messages", J.arr []),
            ("max_tokens", J.num 4096),
            ("temperature", J.num (7 / 10)),
            ("stream", J.bool false)])
    rfl "mid"
    [("choices", J.arr [J.obj [("message", J.obj [("content", J.str "hi")])]]),
     ("usage", J.obj [("prompt_tokens", J.num 3), ("completion_tokens", J.num 1)])]
    (J.str "hi") (J.num 3) (J.num 1) rfl rfl rfl

/-! ### C7 -/

/-- C7: on every backend failure reaching the handler — a non-2xx status
raised by `raise_for_status()`, or any other exception from the request —
the handler returns (does not crash, does not retry: there is a single
backend interaction in the control flow) a well-formed ErrorEnvelope with
`error.type = "api_error"` whose message carries, respectively, the backend
status code with the backend body text verbatim, or the transport error
description. -/
theorem spec_C7 (body mo pl : J) (hb : build_payload body = some (mo, pl))
    (status : Nat) (text desc mid : String) :
    handle_messages (Except.ok body)
        (BackendOutcome.httpStatusError status text) mid =
      HandlerResult.body (error_envelope "api_error"
        ("Ollama error: " ++ toString status ++ " - " ++ text)) ∧
    handle_messages (Except.ok body) (BackendOutcome.exn desc) mid =
      HandlerResult.body (error_envelope "api_error"
        ("Connection error: " ++ desc)) := by
  constructor <;> simp only [handle_messages, hb]

/-- C7 witness: a backend HTTP 500 with body `"oops"` and a transport
timeout, evaluated on the empty request body. -/
theorem spec_C7_witness :
    handle_messages (Except.ok (J.obj []))
        (BackendOutcome.httpStatusError 500 "oops") "mid" =
      HandlerResult.body (error_envelope "api_error"
        ("Ollama error: " ++ toString (500 : Nat) ++ " - " ++ "oops")) ∧
    handle_messages (Except.ok (J.obj []))
        (BackendOutcome.exn "timeout") "mid" =
      HandlerResult.body (error_envelope "api_error"
        ("Connection error: " ++ "timeout")) :=
  spec_C7 (J.obj []) _ _ rfl 500 "oops" "timeout" "mid"

/-! ### C3 -/

theorem extract_list_texts_objs (items : List (List (String × J)))
    (hstr : ∀ kvs ∈ items, ∀ v, pyGet kvs "text" = some v →
      ∃ s, v = J.str s) :
    extract_list_texts (items.map J.obj) =
      (items.filterMap spec_block_text).map J.str := by
  induction items with
  | nil => rfl
  | cons kvs rest ih =>
    have hr := ih (fun k hk v hv => hstr k (List.mem_cons_of_mem _ hk) v hv)
    by_cases ht : isTextType (pyGet kvs "type")
    · cases hpt : pyGet kvs "text" with
      | none => simp [extract_list_texts, spec_block_text, ht, hpt, pyGetD, hr]
      | some v =>
        obtain ⟨s, rfl⟩ := hstr kvs (List.mem_cons_self _ _) v hpt
        simp [extract_list_texts, spec_block_text, ht, hpt, pyGetD, hr]
    · cases hpt : pyGet kvs "text" with
      | none => simp [extract_list_texts, spec_block_text, ht, hpt, hr]
      | some v =>
        obtain ⟨s, rfl⟩ := hstr kvs (List.mem_cons_self _ _) v hpt
        simp [extract_list_texts, spec_block_text, ht, hpt, hr]

/-- C3: on a sequence of blocks (dictionaries whose `text` field, when
present, is a string), the implemented normalization equals the blocks'
contributions per the specification's rule — `type: "text"` blocks
contribute their `text` field defaulting to `""`, blocks without that
discriminator but carrying a `text` field contribute it, all other blocks
contribute nothing — joined by single newlines in original order with no
trailing separator. -/
theorem spec_C3 (items : List (List (String × J)))
    (hstr : ∀ kvs ∈ items, ∀ v, pyGet kvs "text" = some v →
      ∃ s, v = J.str s) :
    extract_text_from_content (J.arr (items.map J.obj)) =
      some (String.intercalate "\n" (items.filterMap spec_block_text)) := by
  simp only [extract_text_from_content, extract_list_texts_objs items hstr,
    join_texts_strs]

/-- C3 witness: a `type: "text"` block, a dropped `type: "image"` block, a
discriminator-less block carrying `text`, and a `type: "text"` block with no
`text` field, flattened. -/
theorem spec_C3_witness :
    extract_text_from_content (J.arr
      [J.obj [("type", J.str "text"), ("text", J.str "a")],
       J.obj [("type", J.str "image")],
       J.obj [("text", J.str "b")],
       J.obj [("type", J.str "text")]]) = some "a\nb\n" := by
  have h := spec_C3
    [[("type", J.str "text"), ("text", J.str "a")],
     [("type", J.str "image")],
     [("text", J.str "b")],
     [("type", J.str "text")]]
    (by
      intro kvs hk v hv
      simp only [List.mem_cons, List.not_mem_nil, or_false] at hk
      rcases hk with rfl | rfl | rfl | rfl
      · simp [pyGet] at hv
        exact ⟨"a", hv.symm⟩
      · simp [pyGet] at hv
      · simp [pyGet] at hv
        exact ⟨"b", hv.symm⟩
      · simp [pyGet] at hv)
  exact h.trans rfl

/-! ### C4 -/

theorem convert_messages_spec (msgs : List (List (String × J)))
    (texts : List String)
    (h : List.Forall₂ (fun kvs t =>
      extract_text_from_content (pyGetD kvs "content" (J.str "")) = some t)
      msgs texts) :
    convert_messages (msgs.map J.obj) =
      some (List.zipWith (fun kvs t =>
        J.obj [("role", pyGetD kvs "role" (J.str "user")),
               ("content", J.str t)]) msgs texts) := by
  induction h with
  | nil => rfl
  | cons h1 h2 ih => simp [convert_messages, h1, ih]

/-- C4: the translated message list is built by prepending
`{role: "system", content: system}` exactly when the system prompt is a
non-empty string (an empty or absent system prompt prepends nothing), and
then appending, for every source message in original order,
`{role: its role, content: the normalization of its content}`. -/
theorem spec_C4 (s : String) (hs : s ≠ "") (msgs : List (List (String × J)))
    (texts : List String)
    (h : List.Forall₂ (fun kvs t =>
      extract_text_from_content (pyGetD kvs "content" (J.str "")) = some t)
      msgs texts) :
    anthropic_messages_to_openai (J.arr (msgs.map J.obj))
        (some (J.str s)) =
      some (J.obj [("role", J.str "system"), ("content", J.str s)] ::
        List.zipWith (fun kvs t =>
          J.obj [("role", pyGetD kvs "role" (J.str "user")),
                 ("content", J.str t)]) msgs texts) ∧
    anthropic_messages_to_openai (J.arr (msgs.map J.obj)) none =
      some (List.zipWith (fun kvs t =>
        J.obj [("role", pyGetD kvs "role" (J.str "user")),
               ("content", J.str t)]) msgs texts) ∧
    anthropic_messages_to_openai (J.arr (msgs.map J.obj))
        (some (J.str "")) =
      some (List.zipWith (fun kvs t =>
        J.obj [("role", pyGetD kvs "role" (J.str "user")),
               ("content", J.str t)]) msgs texts) := by
  have hc := convert_messages_spec msgs texts h
  refine ⟨?_, ?_, ?_⟩ <;>
    simp [anthropic_messages_to_openai, system_message_list, hc, pyTruthy, hs]

/-- C4 witness: the spec's own example — system prompt `"be terse"` and one
user message `"hi"`. -/
theorem spec_C4_witness :
    anthropic_messages_to_openai
        (J.arr [J.obj [("role", J.str "user"), ("content", J.str "hi")]])
        (some (J.str "be terse")) =
      some [J.obj [("role", J.str "system"), ("content", J.str "be terse")],
            J.obj [("role", J.str "user"), ("content", J.str "hi")]] := by
  have h := spec_C4 "be terse" (by decide)
    [[("role", J.str "user"), ("content", J.str "hi")]] ["hi"]
    (List.Forall₂.cons rfl List.Forall₂.nil)
  exact h.1.trans rfl

/-! ### C9 -/

/-- C9: a plain string element of a content list is appended verbatim in its
position and joined with the surrounding extracted texts by the newline
separator — it is not dropped. -/
theorem spec_C9 (pre post : List J) (s : String) (sp spost : List String)
    (h1 : extract_list_texts pre = sp.map J.str)
    (h2 : extract_list_texts post = spost.map J.str) :
    extract_text_from_content (J.arr (pre ++ J.str s :: post)) =
      some (String.intercalate "\n" (sp ++ s :: spost)) := by
  have hl : extract_list_texts (pre ++ J.str s :: post) =
      (sp ++ s :: spost).map J.str := by
    rw [extract_list_texts_append, h1]
    simp [extract_list_texts, h2]
  simp only [extract_text_from_content, hl, join_texts_strs]

/-- C9 witness: a bare string between a text-carrying block and a dropped
null element. -/
theorem spec_C9_witness :
    extract_text_from_content
        (J.arr ([J.obj [("text", J.str "a")]] ++ J.str "mid" :: [J.null])) =
      some (String.intercalate "\n" (["a"] ++ "mid" :: [])) :=
  spec_C9 [J.obj [("text", J.str "a")]] [J.null] "mid" ["a"] [] rfl rfl

/-! ### C10 -/

/-- C10: absent fields receive their defaults — a body without `model` is
translated as model `"claude-haiku-4-5"`; a message without `role` becomes a
target message with role `"user"`; a message without `content` is normalized
from the empty string, yielding content `""` (shown both separately and with
the other field present). -/
theorem spec_C10 (kvs mkvs : List (String × J)) (role c : J) (s : String)
    (hm : pyGet kvs "model" = none)
    (hr : pyGet mkvs "role" = none) (hcon : pyGet mkvs "content" = none)
    (hx : extract_text_from_content c = some s) :
    (∀ mo pl, build_payload (J.obj kvs) = some (mo, pl) →
      mo = J.str "claude-haiku-4-5") ∧
    convert_messages [J.obj (("role", role) :: mkvs)] =
      some [J.obj [("role", role), ("content", J.str "")]] ∧
    convert_messages [J.obj (("content", c) :: mkvs)] =
      some [J.obj [("role", J.str "user"), ("content", J.str s)]] ∧
    convert_messages [J.obj mkvs] =
      some [J.obj [("role", J.str "user"), ("content", J.str "")]] := by
  refine ⟨?_, ?_, ?_, ?_⟩
  · intro mo pl hb
    simp only [build_payload, pyGetD, hm, Option.getD] at hb
    split at hb
    · exact Option.noConfusion hb
    · split at hb
      · exact Option.noConfusion hb
      · simp only [Option.some.injEq, Prod.mk.injEq] at hb
        exact hb.1.symm
  · simp [convert_messages, pyGetD, pyGet, hr, hcon,
      extract_text_from_content]
  · simp [convert_messages, pyGetD, pyGet, hr, hcon, hx]
  · simp [convert_messages, pyGetD, pyGet, hr, hcon,
      extract_text_from_content]

/-- C10 witness: the defaults evaluated on an empty body and on messages
missing `role`, `content`, or both. -/
theorem spec_C10_witness :
    (∀ mo pl, build_payload (J.obj []) = some (mo, pl) →
      mo = J.str "claude-haiku-4-5") ∧
    convert_messages [J.obj [("role", J.str "assistant")]] =
      some [J.obj [("role", J.str "assistant"), ("content", J.str "")]] ∧
    convert_messages [J.obj [("content", J.str "hi")]] =
      some [J.obj [("role", J.str "user"), ("content", J.str "hi")]] ∧
    convert_messages [J.obj []] =
      some [J.obj [("role", J.str "user"), ("content", J.str "")]] :=
  spec_C10 [] [] (J.str "assistant") (J.str "hi") "hi" rfl rfl rfl rfl

end Proxy
